import Mathlib

/-!
Shallow embedding of `src/picamtracker/MotionAnalyser.py` (class
`MotionAnalyser`): the per-frame motion pipeline — threshold masking,
rectangle clustering (`intersects` / `removeIntersections`), the noise
filter / vector aggregation scan, the configuration setters and the
per-frame orchestration of `analyse`.

Modelling conventions:
* numpy `int8` arithmetic (the `x`/`y` fields of the motion array) is
  modelled on ℤ with explicit 8-bit wraparound where the source performs
  int8 operations; `sad` is an unsigned 16-bit value modelled on ℕ.
* numpy float64 arithmetic (means, variance, the movement cap
  `rows*cols/8`) is modelled as exact rationals.
* the external geometry primitive `cv2.findContours`/`cv2.boundingRect`
  (spec §4.2 declares it an external collaborator) is not modelled: the
  list of extracted bounding rectangles is an input of the scan stage.
* the tracker collaborator is external; "emission" is the value passed to
  `tracker.update_tracks`, modelled as `Option (List Region)` — `none`
  when `analyse` returns without calling the tracker.
* the debug sink (`open("debug_motion.data","wb")`) is external; its
  availability is a boolean oracle, and the `raise` escaping `debug_out`
  is modelled with `Except`.
-/

namespace PiCam

/-- Motion block record of one grid cell as delivered by the camera
firmware: signed 8-bit displacement components `x`, `y` and an unsigned
16-bit sum-of-absolute-differences score `sad`. -/
structure MotionBlock where
  x : ℤ
  y : ℤ
  sad : ℕ
deriving DecidableEq

/-- Motion grid: cell lookup by (row, col); `analyse` reads only cells
inside its `rows × cols` window. -/
abbrev Grid : Type := ℕ → ℕ → MotionBlock

/-- Axis-aligned rectangle in grid-cell units, the `[x, y, w, h]` lists of
the source. -/
structure Rect where
  x : ℕ
  y : ℕ
  w : ℕ
  h : ℕ
deriving DecidableEq

/-- Region handed to the tracker: one `new_points` entry
`[[x0,y0,w,h],[vx,vy]]` (MotionAnalyser.analyse line 409). -/
structure Region where
  rect : Rect
  vx : ℚ
  vy : ℚ
deriving DecidableEq

/-- Mutable threshold configuration of `MotionAnalyser` (`self.vmin`,
`self.vmax`, `self.minArea`, `self.maxArea`, `self.sadThreshold`,
`self.debug`), live-mutable through the `set_*` callbacks. -/
structure Config where
  vmin : ℤ
  vmax : ℤ
  minArea : ℤ
  maxArea : ℤ
  sadThreshold : ℤ
  debug : Bool
deriving DecidableEq

/-- Wraparound of numpy int8 arithmetic: reduce an integer into
`[-128, 127]`. -/
def wrap8 (z : ℤ) : ℤ := (z + 128) % 256 - 128

/-- Magnitude `np.abs(a['x']) + np.abs(a['y'])` (line 262).  numpy keeps
the int8 dtype, so the absolute values and their sum wrap at 8 bits. -/
def mag (b : MotionBlock) : ℤ := wrap8 (wrap8 |b.x| + wrap8 |b.y|)

/-- Movement mask cell (line 263).  The source computes
`np.logical_and(mag > self.vmin, mag < self.vmax, a['sad'] > self.sadThreshold)`;
the third positional argument of `np.logical_and` is its `out` buffer, not
a third operand, so the sad comparison merely supplies storage and the
resulting mask is the two-way conjunction of the magnitude band tests. -/
def hasMovement (cfg : Config) (a : Grid) (y x : ℕ) : Bool :=
  decide (cfg.vmin < mag (a y x)) && decide (mag (a y x) < cfg.vmax)

/-- Count of mask-true cells: `np.count_nonzero(has_movement)`
(line 270). -/
def movingElements (cfg : Config) (rows cols : ℕ) (a : Grid) : ℕ :=
  ((List.range rows).map fun y =>
    ((List.range cols).map fun x => if hasMovement cfg a y x then 1 else 0).sum).sum

/-- Containment test of `intersects` line 104: the new rectangle `n` lies
(non-strictly) inside the old rectangle `o`
(`xn >= xo and xn+wn <= xo+wo and yn >= yo and yn+hn <= yo+ho`). -/
def rIsIn (n o : Rect) : Bool :=
  decide (o.x ≤ n.x) && decide (n.x + n.w ≤ o.x + o.w) &&
  decide (o.y ≤ n.y) && decide (n.y + n.h ≤ o.y + o.h)

/-- Containment test of `intersects` line 108: the old rectangle `o` lies
strictly (on the low edges) inside the new rectangle `n`
(`xo > xn and xo+wo <= xn+wn and yo > yn and yo+ho <= yn+hn`). -/
def rStrictIn (o n : Rect) : Bool :=
  decide (n.x < o.x) && decide (o.x + o.w ≤ n.x + n.w) &&
  decide (n.y < o.y) && decide (o.y + o.h ≤ n.y + n.h)

/-- Union bounding box of `intersects` lines 141–145. -/
def rUnion (o n : Rect) : Rect :=
  { x := min o.x n.x
  , y := min o.y n.y
  , w := max (o.x + o.w) (n.x + n.w) - min o.x n.x
  , h := max (o.y + o.h) (n.y + n.h) - min o.y n.y }

/-- Proximity test of `intersects` lines 117–137: expand `n` by 3 grid
units on every side, clamped to `[0, cols] × [0, rows]` (ℕ subtraction is
the source's `max(xn-3, 0)`), then either `o` lies strictly-low inside the
expansion, or per-axis the span of `o` and the expansion is at most the sum
of the raw extents plus twice the margin. -/
def overlapTest (rows cols : ℕ) (o n : Rect) : Bool :=
  let x1nn := n.x - 3
  let y1nn := n.y - 3
  let x2nn := min (n.x + n.w + 3) cols
  let y2nn := min (n.y + n.h + 3) rows
  if decide (x1nn < o.x) && decide (o.x + o.w ≤ x2nn) &&
     decide (y1nn < o.y) && decide (o.y + o.h ≤ y2nn) then
    true
  else
    (decide (max (o.x + o.w) x2nn - min o.x x1nn ≤ o.w + n.w + 2 * 3)) &&
    (decide (max (o.y + o.h) y2nn - min o.y y1nn ≤ o.h + n.h + 2 * 3))

/-- Scan loop of `MotionAnalyser.intersects` (lines 96–155).  The Python
`for` loop iterates over the list while mutating it; its internal fetch
index and the manual index `i` advance together, so after a `pop(i)` the
element that slides into position `i` is skipped.  The loop is modelled by
structural recursion on a fuel bounded by the initial list length plus one
(the scan index grows by one per iteration and the list never grows during
the scan, so the fuel is never exhausted). -/
def intersectsLoop (rows cols : ℕ) (n : Rect) :
    ℕ → List Rect → ℕ → Bool → List Rect
  | 0, rects, _, app => if app then rects ++ [n] else rects
  | fuel + 1, rects, i, app =>
    if h : i < rects.length then
      let o := rects.get ⟨i, h⟩
      if rIsIn n o then
        rects
      else if rStrictIn o n then
        intersectsLoop rows cols n fuel (rects.eraseIdx i) (i + 1) false
      else if overlapTest rows cols o n then
        intersectsLoop rows cols n fuel (rects.set i (rUnion o n)) (i + 1) false
      else
        intersectsLoop rows cols n fuel rects (i + 1) app
    else if app then rects ++ [n] else rects

/-- `MotionAnalyser.intersects(rects, xn, yn, wn, hn)` (lines 92–155):
merge the incoming rectangle `n` into the accumulated list. -/
def intersects (rows cols : ℕ) (rects : List Rect) (n : Rect) : List Rect :=
  intersectsLoop rows cols n (rects.length + 1) rects 0 true

/-- `MotionAnalyser.removeIntersections(contours)` (lines 157–174): drop
rectangles whose area exceeds `maxArea`, then fold the remaining ones into
the accumulated list with `intersects`.  The bounding rectangles of the
contours (`cv2.boundingRect`, an external primitive) are the input. -/
def removeIntersections (rows cols : ℕ) (maxArea : ℤ) (l : List Rect) : List Rect :=
  l.foldl
    (fun rects r =>
      if ((r.w * r.h : ℕ) : ℤ) > maxArea then rects
      else if 0 < rects.length then intersects rows cols rects r
      else rects ++ [r])
    []

/-- Cell coordinates (row, col) of the slice `a[y0:y1, x0:x1]` covered by a
rectangle. -/
def rectCells (r : Rect) : List (ℕ × ℕ) :=
  ((List.range r.h).map fun dy =>
    (List.range r.w).map fun dx => (r.y + dy, r.x + dx)).flatten

/-- Mean of `sad` over a rectangle's cells (float64 `np.mean`, modelled
exactly on ℚ). -/
def sadMean (a : Grid) (r : Rect) : ℚ :=
  (((rectCells r).map fun p => ((a p.1 p.2).sad : ℚ)).sum) / ((r.w * r.h : ℕ) : ℚ)

/-- Population variance of `sad` over a rectangle's cells
(`a[y0:y1,x0:x1]['sad'].var()`, line 389): mean of squared deviations from
the mean, modelled exactly on ℚ. -/
def sadVar (a : Grid) (r : Rect) : ℚ :=
  (((rectCells r).map fun p => ((a p.1 p.2).sad : ℚ) - sadMean a r).map fun d => d ^ 2).sum
    / ((r.w * r.h : ℕ) : ℚ)

/-- Mean of `x` over a rectangle's cells (`np.mean(a[y0:y1,x0:x1]['x'])`,
line 402). -/
def meanVx (a : Grid) (r : Rect) : ℚ :=
  (((rectCells r).map fun p => ((a p.1 p.2).x : ℚ)).sum) / ((r.w * r.h : ℕ) : ℚ)

/-- Mean of `y` over a rectangle's cells (`np.mean(a[y0:y1,x0:x1]['y'])`,
line 403). -/
def meanVy (a : Grid) (r : Rect) : ℚ :=
  (((rectCells r).map fun p => ((a p.1 p.2).y : ℚ)).sum) / ((r.w * r.h : ℕ) : ℚ)

/-- Scan-stage step for one merged rectangle (`analyse` lines 326–409):
re-check the area against `maxArea`; a single-cell rectangle (`w < 2 and
h < 2`) contributes its raw cell vector and counts a rejection when the
cell's raw `sad` lies below `sadThreshold` but is appended regardless; a
multi-cell rectangle is dropped (rejection counted) when its sad variance
lies below `2*sadThreshold` and otherwise contributes the mean vector.
State is the pair (new_points, rejects). -/
def scanStep (cfg : Config) (a : Grid) (st : List Region × ℕ) (r : Rect) :
    List Region × ℕ :=
  if ((r.w * r.h : ℕ) : ℤ) > cfg.maxArea then
    (st.1, st.2 + 1)
  else if r.w < 2 ∧ r.h < 2 then
    let b := a r.y r.x
    (st.1 ++ [⟨r, (b.x : ℚ), (b.y : ℚ)⟩],
     if (b.sad : ℤ) < cfg.sadThreshold then st.2 + 1 else st.2)
  else
    if sadVar a r < 2 * (cfg.sadThreshold : ℚ) then
      (st.1, st.2 + 1)
    else
      (st.1 ++ [⟨r, meanVx a r, meanVy a r⟩], st.2)

/-- Scan stage over the merged rectangle list (`analyse` lines 320–409):
fold `scanStep` from the empty `new_points` list and zero rejection
count. -/
def scanRects (cfg : Config) (a : Grid) (rects : List Rect) : List Region × ℕ :=
  rects.foldl (scanStep cfg a) ([], 0)

/-- Cross-frame analyser state: the one-time calibration flag
`self.started` and the movement cap `self.maxMovements` (float, initially
100, set to `rows*cols/8` at calibration). -/
structure AState where
  started : Bool
  maxMovements : ℚ
deriving DecidableEq

/-- One `analyse` call (lines 235–433).  `sinkOk` tells whether the debug
sink can be opened: with `self.debug` set and the sink unavailable,
`debug_out` re-raises the `open` failure (lines 83–88) and no handler in
`analyse` catches it, which is modelled as `Except.error ()`.  Otherwise an
uncalibrated state records the movement cap and returns without touching
the tracker; a calibrated frame whose mask-true count exceeds the cap
returns early without calling the tracker (`none`); and a normal frame
hands `scanRects` applied to the merged rectangles to the tracker
(`some regions`).  `ex` is the list of bounding rectangles produced by the
external contour extraction for the frame's mask. -/
def analyse (cfg : Config) (rows cols : ℕ) (sinkOk : Bool) (st : AState)
    (a : Grid) (ex : List Rect) : Except Unit (AState × Option (List Region)) :=
  if cfg.debug && !sinkOk then
    Except.error ()
  else if !st.started then
    Except.ok ({ started := true, maxMovements := ((rows * cols : ℕ) : ℚ) / 8 }, none)
  else if ((movingElements cfg rows cols a : ℕ) : ℚ) > st.maxMovements then
    Except.ok (st, none)
  else
    Except.ok (st, some (scanRects cfg a (removeIntersections rows cols cfg.maxArea ex)).1)

/-- `MotionAnalyser.set_vMax` (lines 188–195): apply only when the value
exceeds the current `vmin`. -/
def set_vMax (cfg : Config) (v : ℤ) : Config :=
  if cfg.vmin < v then { cfg with vmax := v } else cfg

/-- `MotionAnalyser.set_vMin` (lines 197–205): clamp values below 1 up to
1 and always apply. -/
def set_vMin (cfg : Config) (v : ℤ) : Config :=
  { cfg with vmin := if v < 1 then 1 else v }

/-- `MotionAnalyser.set_maxArea` (lines 207–214): apply only when the
value exceeds the current `minArea`. -/
def set_maxArea (cfg : Config) (v : ℤ) : Config :=
  if cfg.minArea < v then { cfg with maxArea := v } else cfg

/-- `MotionAnalyser.set_minArea` (lines 216–224): clamp values below 1 up
to 1 and always apply. -/
def set_minArea (cfg : Config) (v : ℤ) : Config :=
  { cfg with minArea := if v < 1 then 1 else v }

/-- `MotionAnalyser.set_sadThreshold` (lines 226–233): apply only when
`0 ≤ value < 16384`. -/
def set_sadThreshold (cfg : Config) (v : ℤ) : Config :=
  if 0 ≤ v ∧ v < 16384 then { cfg with sadThreshold := v } else cfg

/-- Overlap condition in the words of claim C4 / spec §4.3 step 3: the
incoming rectangle `n` expanded by the fixed 3-unit margin (clamped to the
grid bounds) overlaps the existing rectangle `o` on both axes, read as
closed-interval overlap per axis. -/
def specOverlap (rows cols : ℕ) (n o : Rect) : Prop :=
  max o.x (n.x - 3) ≤ min (o.x + o.w) (min (n.x + n.w + 3) cols) ∧
  max o.y (n.y - 3) ≤ min (o.y + o.h) (min (n.y + n.h + 3) rows)

instance (rows cols : ℕ) (n o : Rect) : Decidable (specOverlap rows cols n o) := by
  unfold specOverlap
  exact inferInstance

/-- Modelled from the spec: the merge scan exactly as claim C5 / spec §4.3
words it, for comparison with the source's `intersects`.  When `o` is
fully contained in `new`, `o` is removed and "scanning continues over the
remaining entries" — the entry sliding into the freed slot is examined
next — "without yet inserting `new`", which stays eligible for the final
append of step 4.  All other rules follow the source. -/
def specC5Loop (rows cols : ℕ) (n : Rect) : ℕ → List Rect → ℕ → Bool → List Rect
  | 0, rects, _, app => if app then rects ++ [n] else rects
  | fuel + 1, rects, i, app =>
    if h : i < rects.length then
      let o := rects.get ⟨i, h⟩
      if rIsIn n o then
        rects
      else if rStrictIn o n then
        specC5Loop rows cols n fuel (rects.eraseIdx i) i app
      else if overlapTest rows cols o n then
        specC5Loop rows cols n fuel (rects.set i (rUnion o n)) (i + 1) false
      else
        specC5Loop rows cols n fuel rects (i + 1) app
    else if app then rects ++ [n] else rects

/-- Modelled from the spec: merge of one incoming rectangle under the
claim-C5 reading of the scan. -/
def specC5Merge (rows cols : ℕ) (rects : List Rect) (n : Rect) : List Rect :=
  specC5Loop rows cols n (rects.length + 1) rects 0 true

/-- Fixture: thresholds of a plausible configuration (vMin 2, vMax 40,
sadThreshold 60, maxArea 512), debug off. -/
def cfgA : Config := ⟨2, 40, 1, 512, 60, false⟩

/-- Fixture: configuration with `sadThreshold = 0`, a value the setter
`set_sadThreshold` accepts. -/
def cfgZ : Config := ⟨2, 40, 1, 512, 0, false⟩

/-- Fixture: configuration with `vmin = 5`. -/
def cfgB : Config := ⟨5, 40, 3, 512, 60, false⟩

/-- Fixture: configuration with the debug flag enabled. -/
def cfgD : Config := ⟨2, 40, 1, 512, 60, true⟩

/-- Fixture: grid with a single moving cell at (0,0) whose `sad` is 0,
below any positive threshold. -/
def gridOne : Grid := fun y x => if y = 0 ∧ x = 0 then ⟨3, 0, 0⟩ else ⟨0, 0, 0⟩

/-- Fixture: grid with a single moving cell at (0,0) whose `sad` is 100. -/
def gridOneHi : Grid := fun y x => if y = 0 ∧ x = 0 then ⟨3, 0, 100⟩ else ⟨0, 0, 0⟩

/-- Fixture: grid in which every cell is moving. -/
def gridAll : Grid := fun _ _ => ⟨3, 0, 100⟩

/-- Fixture: grid with constant motion vector (1,0) and constant `sad`
5 — zero sad variance on every rectangle. -/
def gridFlat : Grid := fun _ _ => ⟨1, 0, 5⟩

deriving instance DecidableEq for Except

/-- Unfolding equation of `intersectsLoop` for one remaining fuel step. -/
theorem intersectsLoop_step (rows cols : ℕ) (n : Rect) (fuel : ℕ)
    (rects : List Rect) (i : ℕ) (app : Bool) :
    intersectsLoop rows cols n (fuel + 1) rects i app =
      (if h : i < rects.length then
        if rIsIn n (rects.get ⟨i, h⟩) then
          rects
        else if rStrictIn (rects.get ⟨i, h⟩) n then
          intersectsLoop rows cols n fuel (rects.eraseIdx i) (i + 1) false
        else if overlapTest rows cols (rects.get ⟨i, h⟩) n then
          intersectsLoop rows cols n fuel
            (rects.set i (rUnion (rects.get ⟨i, h⟩) n)) (i + 1) false
        else
          intersectsLoop rows cols n fuel rects (i + 1) app
      else if app then rects ++ [n] else rects) := rfl

/-- Containment of the new rectangle in the old one makes the union
coincide with the old rectangle. -/
theorem rUnion_of_rIsIn (n o : Rect) (h : rIsIn n o = true) : rUnion o n = o := by
  rcases o with ⟨xo, yo, wo, ho⟩
  rcases n with ⟨xn, yn, wn, hn⟩
  simp only [rIsIn, Bool.and_eq_true, decide_eq_true_eq] at h
  simp only [rUnion, Rect.mk.injEq]
  refine ⟨?_, ?_, ?_, ?_⟩ <;> omega

/-- The claim-side overlap condition implies the source's interval test. -/
theorem overlapTest_of_specOverlap (rows cols : ℕ) (o n : Rect)
    (h : specOverlap rows cols n o) : overlapTest rows cols o n = true := by
  rcases o with ⟨xo, yo, wo, ho⟩
  rcases n with ⟨xn, yn, wn, hn⟩
  unfold specOverlap at h
  dsimp only at h
  rcases h with ⟨hx, hy⟩
  unfold overlapTest
  dsimp only
  simp only [Bool.and_eq_true, decide_eq_true_eq]
  split_ifs with h1
  · rfl
  · simp only [Bool.and_eq_true, decide_eq_true_eq]
    constructor <;> omega

/-- The scan stage only appends to the accumulated point list. -/
theorem scanFold_extends (cfg : Config) (a : Grid) :
    ∀ (l : List Rect) (st : List Region × ℕ),
      ∃ t, (l.foldl (scanStep cfg a) st).1 = st.1 ++ t := by
  intro l
  induction l with
  | nil => intro st; exact ⟨[], by simp⟩
  | cons r tl ih =>
    intro st
    rcases ih (scanStep cfg a st r) with ⟨t, ht⟩
    rw [List.foldl_cons, ht]
    unfold scanStep
    split
    · exact ⟨t, rfl⟩
    · split
      · exact ⟨[⟨r, ((a r.y r.x).x : ℚ), ((a r.y r.x).y : ℚ)⟩] ++ t, by simp⟩
      · split
        · exact ⟨t, rfl⟩
        · exact ⟨[⟨r, meanVx a r, meanVy a r⟩] ++ t, by simp⟩

/-- Every region accumulated by the scan stage has area at most
`maxArea`, provided the regions already accumulated do. -/
theorem scanFold_area (cfg : Config) (a : Grid) :
    ∀ (l : List Rect) (st : List Region × ℕ),
      (∀ p ∈ st.1, ((p.rect.w * p.rect.h : ℕ) : ℤ) ≤ cfg.maxArea) →
      ∀ p ∈ (l.foldl (scanStep cfg a) st).1,
        ((p.rect.w * p.rect.h : ℕ) : ℤ) ≤ cfg.maxArea := by
  intro l
  induction l with
  | nil => intro st h p hp; exact h p (by simpa using hp)
  | cons r tl ih =>
    intro st h p hp
    rw [List.foldl_cons] at hp
    refine ih (scanStep cfg a st r) ?_ p hp
    intro q hq
    unfold scanStep at hq
    split at hq
    · exact h q hq
    · rename_i harea
      split at hq
      · rcases List.mem_append.mp hq with hq | hq
        · exact h q hq
        · simp only [List.mem_singleton] at hq
          subst hq
          exact le_of_not_lt harea
      · split at hq
        · exact h q hq
        · rcases List.mem_append.mp hq with hq | hq
          · exact h q hq
          · simp only [List.mem_singleton] at hq
            subst hq
            exact le_of_not_lt harea

/-- C1: the claim states that the movement mask is true at a cell iff the
magnitude band test holds conjoined with `sad > sadThreshold`, so that an
all-sad-low grid yields an empty mask and zero regions.  The source passes
the sad comparison as the third positional argument of `np.logical_and`,
which is the `out` buffer and not an operand, so the confidence clause is
inoperative: a cell with `sad = 0 ≤ sadThreshold = 60` but in-band
magnitude is masked as moving, and the frame emits a region. -/
theorem C1_confidence_clause_inoperative :
    hasMovement cfgA gridOne 0 0 = true ∧
    ((gridOne 0 0).sad : ℤ) ≤ cfgA.sadThreshold ∧
    analyse cfgA 8 8 true ⟨true, 8⟩ gridOne [⟨0, 0, 1, 1⟩] =
      Except.ok (⟨true, 8⟩, some [⟨⟨0, 0, 1, 1⟩, 3, 0⟩]) := by decide

/-- C2 (counterexample): the claim states that a frame whose mask-true
count exceeds the movement cap emits an *empty region list* to the
tracker.  On a 1×8 all-moving grid with cap 1, `analyse` returns without
calling the tracker at all (modelled `none`), which differs from a call
with the empty list (`some []`). -/
theorem C2_overcap_counterexample :
    ((movingElements cfgA 1 8 gridAll : ℕ) : ℚ) > (1 : ℚ) ∧
    analyse cfgA 1 8 true ⟨true, 1⟩ gridAll [] = Except.ok (⟨true, 1⟩, none) ∧
    (Except.ok ((⟨true, 1⟩ : AState), (none : Option (List Region))) :
        Except Unit (AState × Option (List Region))) ≠
      Except.ok (⟨true, 1⟩, some []) := by decide

/-- C2 (amended): for every calibrated frame whose mask-true count
exceeds the movement cap, all further pipeline stages are aborted and the
tracker is not called at all — zero regions are delivered because the
`update_tracks` call is skipped, not because an empty list is passed. -/
theorem C2_overcap_skips_tracker (cfg : Config) (rows cols : ℕ) (sinkOk : Bool)
    (st : AState) (a : Grid) (ex : List Rect)
    (hdbg : cfg.debug = false) (hst : st.started = true)
    (hcap : ((movingElements cfg rows cols a : ℕ) : ℚ) > st.maxMovements) :
    analyse cfg rows cols sinkOk st a ex = Except.ok (st, none) := by
  simp [analyse, hdbg, hst, hcap]

/-- C2 (witness): concrete calibrated over-cap frame. -/
theorem C2_overcap_skips_tracker_witness :
    ((movingElements cfgA 1 8 gridAll : ℕ) : ℚ) > (AState.mk true 1).maxMovements ∧
    analyse cfgA 1 8 true ⟨true, 1⟩ gridAll [] = Except.ok (⟨true, 1⟩, none) :=
  ⟨by decide,
   C2_overcap_skips_tracker cfgA 1 8 true ⟨true, 1⟩ gridAll [] (by decide)
     (by decide) (by decide)⟩

/-- C3: every region emitted to the tracker has area at most `maxArea`:
oversized extracted rectangles are dropped before merging and every merged
rectangle is re-checked against `maxArea` in the scan stage, so an
oversized rectangle never appears in the output, alone or merged. -/
theorem C3_area_bound (cfg : Config) (rows cols : ℕ) (sinkOk : Bool)
    (st st2 : AState) (a : Grid) (ex : List Rect) (regs : List Region) (p : Region)
    (hrun : analyse cfg rows cols sinkOk st a ex = Except.ok (st2, some regs))
    (hp : p ∈ regs) :
    ((p.rect.w * p.rect.h : ℕ) : ℤ) ≤ cfg.maxArea := by
  unfold analyse at hrun
  split at hrun
  · exact absurd hrun (by simp)
  · split at hrun
    · simp only [Except.ok.injEq, Prod.mk.injEq] at hrun
      exact absurd hrun.2 (by simp)
    · split at hrun
      · simp only [Except.ok.injEq, Prod.mk.injEq] at hrun
        exact absurd hrun.2 (by simp)
      · simp only [Except.ok.injEq, Prod.mk.injEq, Option.some.injEq] at hrun
        have hregs := hrun.2
        subst hregs
        exact scanFold_area cfg a _ ([], 0) (by intro q hq; simp at hq) p hp

/-- C3 (witness): concrete frame emitting one 1×1 region within the area
bound. -/
theorem C3_area_bound_witness :
    analyse cfgA 8 8 true ⟨true, 8⟩ gridOneHi [⟨0, 0, 1, 1⟩] =
      Except.ok (⟨true, 8⟩, some [⟨⟨0, 0, 1, 1⟩, 3, 0⟩]) ∧
    (((⟨⟨0, 0, 1, 1⟩, 3, 0⟩ : Region).rect.w *
        (⟨⟨0, 0, 1, 1⟩, 3, 0⟩ : Region).rect.h : ℕ) : ℤ) ≤ cfgA.maxArea :=
  ⟨by decide,
   C3_area_bound cfgA 8 8 true ⟨true, 8⟩ ⟨true, 8⟩ gridOneHi [⟨0, 0, 1, 1⟩]
     [⟨⟨0, 0, 1, 1⟩, 3, 0⟩] ⟨⟨0, 0, 1, 1⟩, 3, 0⟩ (by decide) (by decide)⟩

/-- C8 (counterexample): the claim states that every setter silently
ignores a value violating its invariant, retaining the previous value.
`set_vMin` receives 0, which violates `vMin ≥ 1`; instead of ignoring it,
the setter clamps it to 1 and overwrites the previous value 5. -/
theorem C8_vmin_clamp_counterexample :
    (0 : ℤ) < 1 ∧ set_vMin cfgB 0 ≠ cfgB ∧ (set_vMin cfgB 0).vmin = 1 := by decide

/-- C8 (amended): `set_vMax`, `set_maxArea` and `set_sadThreshold`
silently ignore values violating their invariants, retaining the previous
configuration unchanged with no error; `set_vMin` and `set_minArea`
instead clamp a value below 1 up to 1 and always apply it, changing only
their own field. -/
theorem C8_setter_behavior (cfg : Config) (v : ℤ) :
    (¬ cfg.vmin < v → set_vMax cfg v = cfg) ∧
    (¬ cfg.minArea < v → set_maxArea cfg v = cfg) ∧
    (¬ (0 ≤ v ∧ v < 16384) → set_sadThreshold cfg v = cfg) ∧
    (v < 1 → set_vMin cfg v = { cfg with vmin := 1 }) ∧
    (v < 1 → set_minArea cfg v = { cfg with minArea := 1 }) := by
  refine ⟨?_, ?_, ?_, ?_, ?_⟩ <;> intro h <;>
    simp [set_vMax, set_maxArea, set_sadThreshold, set_vMin, set_minArea, h]

/-- C8 (witness): a rejected `set_vMax` and a clamped `set_vMin` on a
concrete configuration. -/
theorem C8_setter_behavior_witness :
    set_vMax cfgB 3 = cfgB ∧ set_vMin cfgB 0 = { cfgB with vmin := 1 } :=
  ⟨(C8_setter_behavior cfgB 3).1 (by decide),
   (C8_setter_behavior cfgB 0).2.2.2.1 (by decide)⟩

/-- C9 (counterexample): the claim states that a debug-sink open failure
is confined to the debug feature and core motion processing still
completes.  With the debug flag set and the sink unavailable, the `raise`
escaping `debug_out` aborts `analyse` before any motion processing
(modelled `Except.error ()`), while the identical frame with debug off
completes and emits a region. -/
theorem C9_debug_counterexample :
    analyse cfgD 8 8 false ⟨true, 8⟩ gridOneHi [⟨0, 0, 1, 1⟩] = Except.error () ∧
    analyse { cfgD with debug := false } 8 8 false ⟨true, 8⟩ gridOneHi
      [⟨0, 0, 1, 1⟩] = Except.ok (⟨true, 8⟩, some [⟨⟨0, 0, 1, 1⟩, 3, 0⟩]) := by decide

/-- C9 (amended): whenever the debug flag is enabled and the debug sink
cannot be opened, the exception propagates out of `analyse` and the
frame's core motion processing (masking, merging, filtering, emission) is
aborted entirely, for every input frame. -/
theorem C9_debug_failure_aborts (cfg : Config) (rows cols : ℕ) (st : AState)
    (a : Grid) (ex : List Rect) (hdbg : cfg.debug = true) :
    analyse cfg rows cols false st a ex = Except.error () := by
  simp [analyse, hdbg]

/-- C9 (witness): concrete frame aborted by a debug-sink failure. -/
theorem C9_debug_failure_aborts_witness :
    analyse cfgD 1 1 false ⟨false, 100⟩ gridOneHi [] = Except.error () :=
  C9_debug_failure_aborts cfgD 1 1 ⟨false, 100⟩ gridOneHi [] (by decide)

/-- Unfolding of one scan iteration at the head of the list. -/
theorem intersectsLoop_cons (rows cols : ℕ) (n r : Rect) (rest : List Rect)
    (fuel : ℕ) (app : Bool) :
    intersectsLoop rows cols n (fuel + 1) (r :: rest) 0 app =
      (if rIsIn n r then r :: rest
      else if rStrictIn r n then intersectsLoop rows cols n fuel rest 1 false
      else if overlapTest rows cols r n then
        intersectsLoop rows cols n fuel (rUnion r n :: rest) 1 false
      else intersectsLoop rows cols n fuel (r :: rest) 1 app) := by
  rw [intersectsLoop_step,
    dif_pos (show (0 : ℕ) < (r :: rest).length from Nat.succ_pos rest.length)]
  rfl

/-- Behaviour of the scan once the index has passed the end of the
list. -/
theorem intersectsLoop_past (rows cols : ℕ) (n : Rect) (fuel : ℕ)
    (rects : List Rect) (i : ℕ) (app : Bool) (h : rects.length ≤ i) :
    intersectsLoop rows cols n (fuel + 1) rects i app =
      if app then rects ++ [n] else rects := by
  rw [intersectsLoop_step, dif_neg (by omega)]

/-- C4 (counterexample): the claim states that every pair whose
margin-expanded bounds overlap on both axes merges into a single entry
equal to the union bounding box.  With the accumulated list holding
o = (1,1,1,1) and incoming n = (0,0,3,3), the expansion of `n` overlaps
`o` on both axes, yet the scan takes the strict-containment branch: `o` is
removed, `n` is never appended, and the result is the empty list — no
entry equals the union. -/
theorem C4_contained_swallowed_counterexample :
    specOverlap 30 40 ⟨0, 0, 3, 3⟩ ⟨1, 1, 1, 1⟩ ∧
    intersects 30 40 [⟨1, 1, 1, 1⟩] ⟨0, 0, 3, 3⟩ = [] ∧
    ([] : List Rect) ≠ [rUnion ⟨1, 1, 1, 1⟩ ⟨0, 0, 3, 3⟩] := by decide

/-- C4 (amended): for a pair (o, n) reaching the merger whose
margin-expanded bounds overlap on both axes, *provided o is not strictly
contained in n*, the scan over the accumulated list [o] produces exactly
one entry, the union bounding box of the raw `o` and `n`, and `n` is not
appended separately (when `n` is contained in `o` the surviving entry `o`
itself equals that union); if `o` is strictly contained in `n`, `o` is
removed and no union entry is produced. -/
theorem C4_overlap_merges (rows cols : ℕ) (o n : Rect)
    (hov : specOverlap rows cols n o) (hns : rStrictIn o n = false) :
    intersects rows cols [o] n = [rUnion o n] := by
  have e1 : intersects rows cols [o] n =
      intersectsLoop rows cols n (1 + 1) [o] 0 true := rfl
  rw [e1, intersectsLoop_cons]
  cases hb : rIsIn n o with
  | true =>
    rw [rUnion_of_rIsIn n o hb]
    simp
  | false =>
    rw [if_neg (by simp), if_neg (by simp [hns]),
      if_pos (overlapTest_of_specOverlap rows cols o n hov)]
    have e2 : intersectsLoop rows cols n 1 (rUnion o n :: []) 1 false =
        intersectsLoop rows cols n (0 + 1) [rUnion o n] 1 false := rfl
    rw [e2, intersectsLoop_past rows cols n 0 [rUnion o n] 1 false (by simp)]
    rfl

/-- C4 (witness): o = (10,10,2,2) and n = (5,10,3,2) overlap after
expansion and neither contains the other; they merge into the raw union
(5,10,7,2). -/
theorem C4_overlap_merges_witness :
    specOverlap 30 40 ⟨5, 10, 3, 2⟩ ⟨10, 10, 2, 2⟩ ∧
    intersects 30 40 [⟨10, 10, 2, 2⟩] ⟨5, 10, 3, 2⟩ = [⟨5, 10, 7, 2⟩] :=
  ⟨by decide,
   (C4_overlap_merges 30 40 ⟨10, 10, 2, 2⟩ ⟨5, 10, 3, 2⟩ (by decide)
     (by decide)).trans (by decide)⟩

/-- C5 (counterexample): the claim states that after removing an
accumulated rectangle fully contained in `new`, scanning continues over
the remaining entries without yet inserting `new`.  With accumulated list
[(1,1,1,1), (5,0,1,1)] and new (0,0,4,4): the source pops (1,1,1,1), but
the manual index keeps pace with the iterator, so (5,0,1,1) — which would
merge with `new` — is never examined, and `new` is permanently flagged as
merged, so it is not appended: the call returns [(5,0,1,1)].  The scan as
the claim words it would return the union [(0,0,6,4)]. -/
theorem C5_scan_skips_counterexample :
    rStrictIn ⟨1, 1, 1, 1⟩ ⟨0, 0, 4, 4⟩ = true ∧
    intersects 30 40 [⟨1, 1, 1, 1⟩, ⟨5, 0, 1, 1⟩] ⟨0, 0, 4, 4⟩ = [⟨5, 0, 1, 1⟩] ∧
    specC5Merge 30 40 [⟨1, 1, 1, 1⟩, ⟨5, 0, 1, 1⟩] ⟨0, 0, 4, 4⟩ = [⟨0, 0, 6, 4⟩] ∧
    ([⟨5, 0, 1, 1⟩] : List Rect) ≠ [⟨0, 0, 6, 4⟩] := by decide

/-- C5 (amended): if `new` is fully contained in the scanned entry, `new`
is discarded and the list is returned as it stands; if the scanned entry
`o` is strictly contained in `new`, `o` is removed, but the scan skips the
entry that slides into the freed slot and `new` is permanently marked as
merged, never to be appended — in particular, on the two-element list
[o1, o2] with o1 strictly inside `new`, the call returns [o2] with `o2`
unexamined and `new` dropped. -/
theorem C5_containment_scan (rows cols : ℕ) :
    (∀ (r : Rect) (rest : List Rect) (n : Rect), rIsIn n r = true →
      intersects rows cols (r :: rest) n = r :: rest) ∧
    (∀ (o1 o2 n : Rect), rStrictIn o1 n = true →
      intersects rows cols [o1, o2] n = [o2]) := by
  constructor
  · intro r rest n hin
    have e1 : intersects rows cols (r :: rest) n =
        intersectsLoop rows cols n ((r :: rest).length + 1) (r :: rest) 0 true := rfl
    rw [e1, intersectsLoop_cons, if_pos hin]
  · intro o1 o2 n h
    have hnotin : rIsIn n o1 = false := by
      apply Bool.eq_false_iff.mpr
      intro hc
      rcases o1 with ⟨a1, b1, c1, d1⟩
      rcases n with ⟨a2, b2, c2, d2⟩
      simp only [rIsIn, rStrictIn, Bool.and_eq_true, decide_eq_true_eq] at h hc
      omega
    have e1 : intersects rows cols [o1, o2] n =
        intersectsLoop rows cols n (2 + 1) [o1, o2] 0 true := rfl
    rw [e1, intersectsLoop_cons, if_neg (by simp [hnotin]), if_pos h]
    have e2 : intersectsLoop rows cols n 2 [o2] 1 false =
        intersectsLoop rows cols n (1 + 1) [o2] 1 false := rfl
    rw [e2, intersectsLoop_past rows cols n 1 [o2] 1 false (by simp)]
    rfl

/-- C5 (witness): a contained `new` leaves the list unchanged, and a
strictly swallowed first entry yields the skip-and-drop outcome. -/
theorem C5_containment_scan_witness :
    intersects 30 40 [⟨0, 0, 5, 5⟩] ⟨1, 1, 2, 2⟩ = [⟨0, 0, 5, 5⟩] ∧
    intersects 30 40 [⟨1, 1, 1, 1⟩, ⟨20, 20, 2, 2⟩] ⟨0, 0, 4, 4⟩ = [⟨20, 20, 2, 2⟩] :=
  ⟨(C5_containment_scan 30 40).1 ⟨0, 0, 5, 5⟩ [] ⟨1, 1, 2, 2⟩ (by decide),
   (C5_containment_scan 30 40).2 ⟨1, 1, 1, 1⟩ ⟨20, 20, 2, 2⟩ ⟨0, 0, 4, 4⟩ (by decide)⟩

/-- Cell list of the 2×1 rectangle at the origin. -/
theorem rectCells_two : rectCells ⟨0, 0, 2, 1⟩ = [(0, 0), (0, 1)] := by decide

/-- Zero sad variance of the constant grid on the 2×1 rectangle. -/
theorem sadVar_flat : sadVar gridFlat ⟨0, 0, 2, 1⟩ = 0 := by
  norm_num [sadVar, sadMean, rectCells_two, gridFlat]

/-- Mean sad of the constant grid on the 2×1 rectangle. -/
theorem sadMean_flat : sadMean gridFlat ⟨0, 0, 2, 1⟩ = 5 := by
  norm_num [sadMean, rectCells_two, gridFlat]

/-- Mean x-component of the constant grid on the 2×1 rectangle. -/
theorem meanVx_flat : meanVx gridFlat ⟨0, 0, 2, 1⟩ = 1 := by
  norm_num [meanVx, rectCells_two, gridFlat]

/-- Mean y-component of the constant grid on the 2×1 rectangle. -/
theorem meanVy_flat : meanVy gridFlat ⟨0, 0, 2, 1⟩ = 0 := by
  norm_num [meanVy, rectCells_two, gridFlat]

/-- C6 (counterexample): the claim states that a multi-cell rectangle
with zero sad variance is *always* rejected even when its mean sad
exceeds `sadThreshold`.  With `sadThreshold = 0` (a value the setter
accepts), a 2×1 rectangle of constant sad 5 has zero variance and mean
sad above the threshold, yet `0 < 2*0` is false and the region is
emitted. -/
theorem C6_zero_threshold_counterexample :
    sadVar gridFlat ⟨0, 0, 2, 1⟩ = 0 ∧
    (cfgZ.sadThreshold : ℚ) < sadMean gridFlat ⟨0, 0, 2, 1⟩ ∧
    scanStep cfgZ gridFlat ([], 0) ⟨0, 0, 2, 1⟩ = ([⟨⟨0, 0, 2, 1⟩, 1, 0⟩], 0) := by
  refine ⟨sadVar_flat, ?_, ?_⟩
  · rw [sadMean_flat]
    norm_num [cfgZ]
  · simp [scanStep, cfgZ, sadVar_flat, meanVx_flat, meanVy_flat]

/-- C6 (amended): a multi-cell rectangle (w ≥ 2 or h ≥ 2) within the area
bound is discarded (rejection counted) exactly when its sad variance is
below `2*sadThreshold`, and otherwise emitted with the arithmetic mean of
vx and vy as composite vector; in particular, whenever `sadThreshold ≥ 1`,
a zero-variance multi-cell rectangle is always rejected. -/
theorem C6_multicell_filter (cfg : Config) (a : Grid) (st : List Region × ℕ)
    (r : Rect) (harea : ¬ (((r.w * r.h : ℕ) : ℤ) > cfg.maxArea))
    (hmc : ¬ (r.w < 2 ∧ r.h < 2)) :
    (sadVar a r < 2 * (cfg.sadThreshold : ℚ) →
      scanStep cfg a st r = (st.1, st.2 + 1)) ∧
    (¬ sadVar a r < 2 * (cfg.sadThreshold : ℚ) →
      scanStep cfg a st r = (st.1 ++ [⟨r, meanVx a r, meanVy a r⟩], st.2)) ∧
    (sadVar a r = 0 → 1 ≤ cfg.sadThreshold →
      scanStep cfg a st r = (st.1, st.2 + 1)) := by
  have hf : (r.w : ℤ) * (r.h : ℤ) ≤ cfg.maxArea := by
    push_cast at harea
    omega
  refine ⟨fun h => ?_, fun h => ?_, fun h0 h1 => ?_⟩
  · simp [scanStep, harea, hmc, h]
  · simp [scanStep, hf, hmc, h]
  · have hlt : sadVar a r < 2 * (cfg.sadThreshold : ℚ) := by
      rw [h0]
      have hq : (1 : ℚ) ≤ (cfg.sadThreshold : ℚ) := by exact_mod_cast h1
      linarith
    simp [scanStep, harea, hmc, hlt]

/-- C6 (witness): with `sadThreshold = 60`, the zero-variance 2×1
rectangle on the constant grid is rejected without being emitted. -/
theorem C6_multicell_filter_witness :
    sadVar gridFlat ⟨0, 0, 2, 1⟩ = 0 ∧
    scanStep cfgA gridFlat ([], 0) ⟨0, 0, 2, 1⟩ = ([], 1) :=
  ⟨sadVar_flat,
   (C6_multicell_filter cfgA gridFlat ([], 0) ⟨0, 0, 2, 1⟩ (by decide)
     (by decide)).2.2 sadVar_flat (by decide)⟩

/-- C7: a single-cell merged rectangle (w < 2 and h < 2) within the area
bound is always appended to the frame's output carrying the cell's raw
(vx, vy) as composite vector; the confidence consulted is the cell's raw
sad, and when it lies below `sadThreshold` a rejection is counted while
the region is still appended, so it also appears in the final scan output
wherever the rectangle sits in the merged list. -/
theorem C7_single_cell_emitted (cfg : Config) (a : Grid) (st : List Region × ℕ)
    (r : Rect) (pre suf : List Rect) (hw : r.w = 1) (hh : r.h = 1)
    (harea : ¬ (((r.w * r.h : ℕ) : ℤ) > cfg.maxArea)) :
    scanStep cfg a st r =
      (st.1 ++ [⟨r, ((a r.y r.x).x : ℚ), ((a r.y r.x).y : ℚ)⟩],
        if ((a r.y r.x).sad : ℤ) < cfg.sadThreshold then st.2 + 1 else st.2) ∧
    (⟨r, ((a r.y r.x).x : ℚ), ((a r.y r.x).y : ℚ)⟩ : Region) ∈
      (scanRects cfg a (pre ++ r :: suf)).1 := by
  have hstep : ∀ st' : List Region × ℕ, scanStep cfg a st' r =
      (st'.1 ++ [⟨r, ((a r.y r.x).x : ℚ), ((a r.y r.x).y : ℚ)⟩],
        if ((a r.y r.x).sad : ℤ) < cfg.sadThreshold then st'.2 + 1 else st'.2) := by
    intro st'
    have hf : (1 : ℤ) ≤ cfg.maxArea := by
      rw [hw, hh] at harea
      simpa using harea
    simp [scanStep, hw, hh, hf]
  refine ⟨hstep st, ?_⟩
  unfold scanRects
  rw [List.foldl_append, List.foldl_cons]
  rcases scanFold_extends cfg a suf
    (scanStep cfg a (List.foldl (scanStep cfg a) ([], 0) pre) r) with ⟨t, ht⟩
  rw [ht, hstep]
  simp

/-- C7 (witness): the sad-0 single moving cell is rejected-and-counted
yet still emitted with its raw vector (3, 0). -/
theorem C7_single_cell_emitted_witness :
    scanStep cfgA gridOne ([], 0) ⟨0, 0, 1, 1⟩ = ([⟨⟨0, 0, 1, 1⟩, 3, 0⟩], 1) ∧
    (⟨⟨0, 0, 1, 1⟩, 3, 0⟩ : Region) ∈
      (scanRects cfgA gridOne ([] ++ ⟨0, 0, 1, 1⟩ :: [])).1 := by
  have h := C7_single_cell_emitted cfgA gridOne ([], 0) ⟨0, 0, 1, 1⟩ [] []
    (by decide) (by decide) (by decide)
  exact ⟨h.1.trans (by decide), h.2⟩

/-- C10: the per-frame clustering is not idempotent: merging the input
sequence (0,0,2,2), (10,0,2,2), (4,0,8,2) yields two rectangles of which
the second is fully contained in the first (they satisfy the containment
criterion of the merge rules), and re-applying `removeIntersections` to
its own output changes it. -/
theorem C10_merge_not_idempotent :
    removeIntersections 30 40 512 [⟨0, 0, 2, 2⟩, ⟨10, 0, 2, 2⟩, ⟨4, 0, 8, 2⟩] =
      [⟨0, 0, 12, 2⟩, ⟨4, 0, 8, 2⟩] ∧
    rIsIn ⟨4, 0, 8, 2⟩ ⟨0, 0, 12, 2⟩ = true ∧
    removeIntersections 30 40 512 [⟨0, 0, 12, 2⟩, ⟨4, 0, 8, 2⟩] = [⟨0, 0, 12, 2⟩] ∧
    ([⟨0, 0, 12, 2⟩] : List Rect) ≠ [⟨0, 0, 12, 2⟩, ⟨4, 0, 8, 2⟩] := by decide

end PiCam
